import Mathlib

/-!
Verification of the fastapi-tui event pipeline against its specification.

Shallow embedding of the relevant source modules:
* `src/fastapi_tui/core/models.py` (EndpointHit, EndpointStats.update)
* `src/fastapi_tui/handlers/hit_handler.py` (merge_hits)
* `src/fastapi_tui/fastapi_tui.py` (the consumer dispatcher:
  `_handle_legacy_request`, `_handle_hit`, and the per-endpoint hit list kept
  by `RequestViewer.add_hit` in `widgets/request_viewer.py`)
* `src/fastapi_tui/middleware/request_logger.py` (TUIMiddleware.dispatch event
  emission and `_capture_request_body`)
* `src/fastapi_tui/config.py` (TUIConfig, should_log_request, scrub_data,
  to_json_payload / from_json_payload)
* `src/fastapi_tui/persistence/sqlite.py` (TUIPersistence)

Python floats are modelled as `ℚ`, datetimes as `Nat` ticks, JSON-like values
as the inductive `JsonV`, Python dicts as association lists.  Where the Python
source raises an exception that a caller swallows, the embedding returns the
state as observably left behind by the partially executed body; each such spot
is noted next to the definition.
-/

/-- JSON-like values, as produced by `json.loads` in the middleware and passed
around as request/response bodies, runtime-log entries and exception
payloads. -/
inductive JsonV where
  | null : JsonV
  | bool : Bool → JsonV
  | num : ℚ → JsonV
  | str : String → JsonV
  | arr : List JsonV → JsonV
  | obj : List (String × JsonV) → JsonV

/-- `EndpointHit` from `core/models.py`: one observed request/response
lifecycle.  `timestamp` is an abstract tick; optional Python fields are
`Option`. -/
structure EndpointHit where
  id : String
  endpoint : String
  method : String
  status_code : Option Int
  duration_ms : Option ℚ
  timestamp : Nat
  client : String
  request_params : Option (List (String × String))
  request_body : Option JsonV
  request_headers : Option (List (String × String))
  response_body : Option JsonV
  response_headers : Option (List (String × String))
  runtime_logs : List JsonV
  exceptions : List JsonV
  pending : Bool
  error : Option String

/-- `merge_hits` from `handlers/hit_handler.py`: merges an update into an
existing hit.  Each response-side field is overwritten only when the update
supplies a non-`None` (for the two lists: non-empty, Python truthiness) value;
`pending` is always taken from the update; all other fields of `existing` are
left untouched. -/
def merge_hits (existing update : EndpointHit) : EndpointHit :=
  { existing with
    status_code := match update.status_code with
      | some v => some v
      | none => existing.status_code
    duration_ms := match update.duration_ms with
      | some v => some v
      | none => existing.duration_ms
    response_body := match update.response_body with
      | some v => some v
      | none => existing.response_body
    response_headers := match update.response_headers with
      | some v => some v
      | none => existing.response_headers
    runtime_logs := match update.runtime_logs with
      | [] => existing.runtime_logs
      | l => l
    exceptions := match update.exceptions with
      | [] => existing.exceptions
      | l => l
    error := match update.error with
      | some v => some v
      | none => existing.error
    pending := update.pending }

/-- C10: `merge_hits` leaves the existing hit's identity and request-side
fields (`id`, `endpoint`, `method`, `timestamp`, `client`, `request_params`,
`request_body`, `request_headers`) unchanged; it overwrites `status_code`,
`duration_ms`, `response_body`, `response_headers`, `error` exactly when the
update supplies a non-`None` value, `runtime_logs` and `exceptions` exactly
when the update supplies a non-empty list, and always sets `pending` to the
update's `pending`. -/
theorem C10_merge_hits_frame (existing update : EndpointHit) :
    (merge_hits existing update).id = existing.id ∧
    (merge_hits existing update).endpoint = existing.endpoint ∧
    (merge_hits existing update).method = existing.method ∧
    (merge_hits existing update).timestamp = existing.timestamp ∧
    (merge_hits existing update).client = existing.client ∧
    (merge_hits existing update).request_params = existing.request_params ∧
    (merge_hits existing update).request_body = existing.request_body ∧
    (merge_hits existing update).request_headers = existing.request_headers ∧
    (merge_hits existing update).status_code =
      (match update.status_code with
        | some v => some v
        | none => existing.status_code) ∧
    (merge_hits existing update).duration_ms =
      (match update.duration_ms with
        | some v => some v
        | none => existing.duration_ms) ∧
    (merge_hits existing update).response_body =
      (match update.response_body with
        | some v => some v
        | none => existing.response_body) ∧
    (merge_hits existing update).response_headers =
      (match update.response_headers with
        | some v => some v
        | none => existing.response_headers) ∧
    (merge_hits existing update).runtime_logs =
      (match update.runtime_logs with
        | [] => existing.runtime_logs
        | l => l) ∧
    (merge_hits existing update).exceptions =
      (match update.exceptions with
        | [] => existing.exceptions
        | l => l) ∧
    (merge_hits existing update).error =
      (match update.error with
        | some v => some v
        | none => existing.error) ∧
    (merge_hits existing update).pending = update.pending := by
  repeat' constructor

/-- `EndpointStats` from `core/models.py`.  The Python `status_codes` dict is
an association list; `last_hit` stores the tick of the last hit. -/
structure EndpointStats where
  endpoint : String
  total_hits : Nat
  success_count : Nat
  error_count : Nat
  avg_duration_ms : ℚ
  min_duration_ms : Option ℚ
  max_duration_ms : Option ℚ
  last_hit : Option Nat
  status_codes : List (Int × Nat)
  durations : List ℚ
  p50 : ℚ
  p95 : ℚ
  p99 : ℚ

/-- Field defaults of `EndpointStats` (all counters zero, empty containers). -/
def statsInit (e : String) : EndpointStats :=
  { endpoint := e, total_hits := 0, success_count := 0, error_count := 0,
    avg_duration_ms := 0, min_duration_ms := none, max_duration_ms := none,
    last_hit := none, status_codes := [], durations := [],
    p50 := 0, p95 := 0, p99 := 0 }

/-- `self.status_codes[c] = self.status_codes.get(c, 0) + 1` on the
association-list model of the dict. -/
def bumpStatusCode (m : List (Int × Nat)) (c : Int) : List (Int × Nat) :=
  match m.lookup c with
  | some n => m.map (fun kv => if kv.1 = c then (kv.1, n + 1) else kv)
  | none => m ++ [(c, 1)]

/-- The `if hit.status_code:` block of `EndpointStats.update`: Python
truthiness makes the block a no-op for `None` and for status code `0`. -/
def statusStep (s : EndpointStats) (sc : Option Int) : EndpointStats :=
  match sc with
  | none => s
  | some c =>
    if c = 0 then s
    else
      let s1 := if c < 400 then { s with success_count := s.success_count + 1 }
        else { s with error_count := s.error_count + 1 }
      { s1 with status_codes := bumpStatusCode s1.status_codes c }

/-- The rolling-window append of `EndpointStats.update`: append, then
`pop(0)` once when the length exceeds 1000. -/
def windowAppend (w : List ℚ) (d : ℚ) : List ℚ :=
  let w2 := w ++ [d]
  if 1000 < w2.length then w2.drop 1 else w2

/-- The percentile recomputation of `EndpointStats.update`: sort the window
ascending and index at `int(n * 0.5)`, `int(n * 0.95)`, `int(n * 0.99)`.
For the window sizes that can occur (n ≤ 1000) the Python float products
truncate to exactly `n / 2`, `19 * n / 20` and `99 * n / 100` in integer
arithmetic, which is how the indices are modelled.  Python `sorted` and
`List.insertionSort` agree on sorted order and length, which is all the
indexing depends on.  The indices are in bounds for every non-empty window
(proved below), so `getD` with default 0 is exact. -/
def percentileStep (s : EndpointStats) : EndpointStats :=
  match s.durations with
  | [] => s
  | _ =>
    let sorted := List.insertionSort (fun a b : ℚ => a ≤ b) s.durations
    let n := sorted.length
    { s with
      p50 := sorted.getD (n / 2) 0,
      p95 := sorted.getD (19 * n / 20) 0,
      p99 := sorted.getD (99 * n / 100) 0 }

/-- The `if hit.duration_ms is not None:` block of `EndpointStats.update`:
window append (cap 1000), incremental average with the `avg == 0` guard and
division by `total_hits` (when `total_hits = 0` the Python source raises
`ZeroDivisionError`; Lean's `/ 0 = 0` stands in for that unreachable-in-the-
dispatcher corner), min/max update, percentile recomputation. -/
def durationStep (s : EndpointStats) (dur : Option ℚ) : EndpointStats :=
  match dur with
  | none => s
  | some d =>
    let s1 : EndpointStats := { s with durations := windowAppend s.durations d }
    let s2 : EndpointStats :=
      if s1.avg_duration_ms = 0 then { s1 with avg_duration_ms := d }
      else { s1 with avg_duration_ms :=
        (s1.avg_duration_ms * ((s1.total_hits : ℚ) - 1) + d) / (s1.total_hits : ℚ) }
    let s3 : EndpointStats := { s2 with
      min_duration_ms := some (match s2.min_duration_ms with
        | none => d
        | some m => if d < m then d else m),
      max_duration_ms := some (match s2.max_duration_ms with
        | none => d
        | some m => if m < d then d else m) }
    percentileStep s3

/-- `EndpointStats.update` from `core/models.py`: optional `total_hits`
increment, `last_hit`, status classification, then the duration block. -/
def EndpointStats.update (s : EndpointStats) (hit : EndpointHit)
    (count_hit : Bool) : EndpointStats :=
  let s0 := if count_hit then { s with total_hits := s.total_hits + 1 } else s
  let s1 := { s0 with last_hit := some hit.timestamp }
  durationStep (statusStep s1 hit.status_code) hit.duration_ms

/-- A hit that carries only a duration, as used to exercise the stats
aggregator with duration-carrying updates. -/
def durHit (d : ℚ) : EndpointHit :=
  { id := "", endpoint := "", method := "GET", status_code := none,
    duration_ms := some d, timestamp := 0, client := "unknown",
    request_params := none, request_body := none, request_headers := none,
    response_body := none, response_headers := none, runtime_logs := [],
    exceptions := [], pending := false, error := none }

/-- Feeding a sequence of duration-carrying, counted updates into one
endpoint's fresh stats. -/
def feedDurations (e : String) (ds : List ℚ) : EndpointStats :=
  ds.foldl (fun s d => s.update (durHit d) true) (statsInit e)

/-- Applying an arbitrary sequence of `update` calls (each with its
`count_hit` flag) to one endpoint's fresh stats. -/
def applyUpdates (e : String) (us : List (EndpointHit × Bool)) : EndpointStats :=
  us.foldl (fun s u => s.update u.1 u.2) (statsInit e)

theorem statusStep_p50 (s : EndpointStats) (sc : Option Int) :
    (statusStep s sc).p50 = s.p50 := by
  cases sc with
  | none => rfl
  | some c => by_cases h0 : c = 0 <;> by_cases h4 : c < 400 <;> simp [statusStep, h0, h4]

theorem statusStep_p95 (s : EndpointStats) (sc : Option Int) :
    (statusStep s sc).p95 = s.p95 := by
  cases sc with
  | none => rfl
  | some c => by_cases h0 : c = 0 <;> by_cases h4 : c < 400 <;> simp [statusStep, h0, h4]

theorem statusStep_p99 (s : EndpointStats) (sc : Option Int) :
    (statusStep s sc).p99 = s.p99 := by
  cases sc with
  | none => rfl
  | some c => by_cases h0 : c = 0 <;> by_cases h4 : c < 400 <;> simp [statusStep, h0, h4]

theorem percentileStep_total_hits (s : EndpointStats) :
    (percentileStep s).total_hits = s.total_hits := by
  cases h : s.durations <;> simp [percentileStep, h]

theorem percentileStep_avg (s : EndpointStats) :
    (percentileStep s).avg_duration_ms = s.avg_duration_ms := by
  cases h : s.durations <;> simp [percentileStep, h]

theorem percentileStep_durations (s : EndpointStats) :
    (percentileStep s).durations = s.durations := by
  cases h : s.durations <;> simp [percentileStep, h]

theorem durationStep_some_total (s : EndpointStats) (d : ℚ) :
    (durationStep s (some d)).total_hits = s.total_hits := by
  simp only [durationStep]
  split <;> simp [percentileStep_total_hits]

theorem durationStep_some_avg (s : EndpointStats) (d : ℚ) :
    (durationStep s (some d)).avg_duration_ms =
      (if s.avg_duration_ms = 0 then d
        else (s.avg_duration_ms * ((s.total_hits : ℚ) - 1) + d) / (s.total_hits : ℚ)) := by
  simp only [durationStep]
  split <;> simp_all [percentileStep_avg]

theorem durationStep_some_durations (s : EndpointStats) (d : ℚ) :
    (durationStep s (some d)).durations = windowAppend s.durations d := by
  simp only [durationStep]
  split <;> simp [percentileStep_durations]

theorem feedDurations_snoc (e : String) (ds : List ℚ) (d : ℚ) :
    feedDurations e (ds ++ [d]) = (feedDurations e ds).update (durHit d) true := by
  simp [feedDurations, List.foldl_append]

theorem update_durHit_total (s : EndpointStats) (d : ℚ) :
    (s.update (durHit d) true).total_hits = s.total_hits + 1 := by
  simp [EndpointStats.update, durHit, statusStep, durationStep_some_total]

theorem update_durHit_avg (s : EndpointStats) (d : ℚ) :
    (s.update (durHit d) true).avg_duration_ms =
      (if s.avg_duration_ms = 0 then d
        else (s.avg_duration_ms * (s.total_hits : ℚ) + d) / ((s.total_hits : ℚ) + 1)) := by
  simp only [EndpointStats.update, durHit, statusStep, durationStep_some_avg, if_true]
  split <;> [rfl; (push_cast; ring_nf)]

theorem update_durHit_durations (s : EndpointStats) (d : ℚ) :
    (s.update (durHit d) true).durations = windowAppend s.durations d := by
  simp [EndpointStats.update, durHit, statusStep, durationStep_some_durations]

theorem avg_mean_aux (e : String) (ds : List ℚ) :
    (∀ d ∈ ds, 0 < d) →
      (feedDurations e ds).total_hits = ds.length ∧
      (ds = [] → (feedDurations e ds).avg_duration_ms = 0) ∧
      (ds ≠ [] →
        (feedDurations e ds).avg_duration_ms = ds.sum / (ds.length : ℚ) ∧
        0 < (feedDurations e ds).avg_duration_ms) := by
  induction ds using List.reverseRecOn with
  | nil => intro _; refine ⟨rfl, fun _ => rfl, fun h => absurd rfl h⟩
  | append_singleton ds d ih =>
    intro hpos
    have hds := ih (fun x hx => hpos x (List.mem_append_left _ hx))
    have hd : 0 < d := hpos d (List.mem_append_right _ (List.mem_singleton_self d))
    rw [feedDurations_snoc]
    refine ⟨?_, fun h => absurd h (by simp), fun _ => ?_⟩
    · rw [update_durHit_total, hds.1]; simp
    · rw [update_durHit_avg]
      rcases eq_or_ne ds [] with rfl | hne
      · have h0 : (feedDurations e []).avg_duration_ms = 0 := hds.2.1 rfl
        rw [if_pos h0]
        exact ⟨by simp, hd⟩
      · obtain ⟨havg, hposavg⟩ := hds.2.2 hne
        have hne0 : (feedDurations e ds).avg_duration_ms ≠ 0 := ne_of_gt hposavg
        rw [if_neg hne0, havg, hds.1]
        have hlen : (ds.length : ℚ) ≠ 0 := by
          simpa using hne
        have hsum : 0 < ds.sum := List.sum_pos ds (fun x hx => hpos x (List.mem_append_left _ hx)) hne
        constructor
        · rw [div_mul_cancel₀ _ hlen]
          simp [List.sum_append]
        · rw [div_mul_cancel₀ _ hlen]
          apply div_pos (by linarith) (by positivity)

/-- C5 (amended): when every update in the sequence carries a strictly
positive duration and increments `total_hits` (`count_hit=True`), the running
average equals the arithmetic mean of the durations fed so far.  The source
guards `avg == 0` rather than `n == 0` and divides by `total_hits` rather
than by the number of observed durations, so the mean is preserved only on
such sequences. -/
theorem C5_avg_is_mean_of_positive (e : String) (ds : List ℚ)
    (hpos : ∀ d ∈ ds, 0 < d) (hne : ds ≠ []) :
    (feedDurations e ds).avg_duration_ms = ds.sum / (ds.length : ℚ) :=
  ((avg_mean_aux e ds hpos).2.2 hne).1

/-- Witness for C5 (amended) at durations `[1, 2]`: the average is `3/2`. -/
theorem C5_avg_is_mean_of_positive_witness :
    (feedDurations "/e" [1, 2]).avg_duration_ms =
      ([1, 2] : List ℚ).sum / ((([1, 2] : List ℚ).length : Nat) : ℚ) :=
  C5_avg_is_mean_of_positive "/e" [1, 2] (by norm_num) (by simp)

/-- C5 counterexample: after the two duration-carrying updates `0` then `10`,
the code's `avg == 0` guard resets the average to `10`, while the arithmetic
mean of the two durations is `5`; so the claim's equality with the mean fails
at this input. -/
theorem C5_counterexample :
    (feedDurations "/e" [0, 10]).avg_duration_ms = 10 ∧
    ([0, 10] : List ℚ).sum / ((([0, 10] : List ℚ).length : Nat) : ℚ) = 5 ∧
    (10 : ℚ) ≠ 5 := by
  refine ⟨?_, by norm_num, by norm_num⟩
  have h1 : feedDurations "/e" [0, 10] =
      ((statsInit "/e").update (durHit 0) true).update (durHit 10) true := by
    simp [feedDurations]
  rw [h1, update_durHit_avg, update_durHit_avg]
  norm_num [statsInit]

theorem feedDurations_window (e : String) (ds : List ℚ) :
    (feedDurations e ds).durations = ds.foldl windowAppend [] := by
  induction ds using List.reverseRecOn with
  | nil => rfl
  | append_singleton ds d ih =>
    rw [feedDurations_snoc, update_durHit_durations, ih, List.foldl_append]
    rfl

theorem windowFold_drop (ds : List ℚ) :
    ds.foldl windowAppend [] = ds.drop (ds.length - 1000) := by
  induction ds using List.reverseRecOn with
  | nil => rfl
  | append_singleton ds d ih =>
    rw [List.foldl_append, List.foldl_cons, List.foldl_nil, ih]
    by_cases hc : ds.length ≤ 999
    · have hcond : ¬ 1000 < (ds.drop (ds.length - 1000) ++ [d]).length := by
        rw [List.length_append, List.length_drop, List.length_singleton]
        omega
      have h0 : ds.length - 1000 = 0 := by omega
      simp only [windowAppend]
      rw [if_neg hcond, h0, List.drop_zero]
      have h1 : (ds ++ [d]).length - 1000 = 0 := by
        rw [List.length_append, List.length_singleton]
        omega
      rw [h1, List.drop_zero]
    · have hcond : 1000 < (ds.drop (ds.length - 1000) ++ [d]).length := by
        rw [List.length_append, List.length_drop, List.length_singleton]
        omega
      simp only [windowAppend]
      rw [if_pos hcond]
      have hd1 : ((ds.drop (ds.length - 1000)) ++ [d]).drop 1 =
          (ds.drop (ds.length - 1000)).drop 1 ++ [d] :=
        List.drop_append_of_le_length (by rw [List.length_drop]; omega)
      rw [hd1, List.drop_drop, List.length_append, List.length_singleton]
      have hle : ds.length + 1 - 1000 ≤ ds.length := by omega
      have h2 : List.drop (ds.length + 1 - 1000) (ds ++ [d]) =
          List.drop (ds.length + 1 - 1000) ds ++ [d] :=
        List.drop_append_of_le_length hle
      have harith : ds.length - 1000 + 1 = ds.length + 1 - 1000 := by omega
      rw [harith]
      exact h2.symm

/-- C7: after feeding any sequence of duration-carrying, counted updates into
one endpoint's fresh stats, the rolling duration window is exactly the suffix
of the fed durations of length `min total 1000`: the length never exceeds
1000 and, once the window is full, each new duration evicts the oldest entry
first. -/
theorem C7_window_is_capped_suffix (e : String) (ds : List ℚ) :
    (feedDurations e ds).durations = ds.drop (ds.length - 1000) ∧
    (feedDurations e ds).durations.length = min ds.length 1000 := by
  have h := (feedDurations_window e ds).trans (windowFold_drop ds)
  refine ⟨h, ?_⟩
  rw [h, List.length_drop]
  omega

theorem windowAppend_ne_nil (w : List ℚ) (d : ℚ) : windowAppend w d ≠ [] := by
  simp only [windowAppend]
  split
  next h =>
    intro hcontra
    have hlen := congrArg List.length hcontra
    rw [List.length_drop] at hlen
    simp only [List.length_nil] at hlen
    omega
  next h => simp

theorem sorted_getD_mono (l : List ℚ)
    (hl : List.Sorted (fun a b : ℚ => a ≤ b) l) (i j : Nat) (hij : i ≤ j)
    (hj : j < l.length) : l.getD i 0 ≤ l.getD j 0 := by
  have hi : i < l.length := lt_of_le_of_lt hij hj
  rw [List.getD_eq_getElem l 0 hi, List.getD_eq_getElem l 0 hj]
  exact hl.rel_get_of_le (by exact hij)

theorem durationStep_some_eq (s : EndpointStats) (d : ℚ) :
    ∃ s3 : EndpointStats, durationStep s (some d) = percentileStep s3 ∧
      s3.durations = windowAppend s.durations d := by
  simp only [durationStep]
  split <;> exact ⟨_, rfl, rfl⟩

theorem percentileStep_ordered (s : EndpointStats) (hne : s.durations ≠ []) :
    (percentileStep s).p50 ≤ (percentileStep s).p95 ∧
    (percentileStep s).p95 ≤ (percentileStep s).p99 := by
  cases hw : s.durations with
  | nil => exact absurd hw hne
  | cons a t =>
    simp only [percentileStep, hw]
    have hsort : List.Sorted (fun a b : ℚ => a ≤ b)
        (List.insertionSort (fun a b : ℚ => a ≤ b) (a :: t)) :=
      List.sorted_insertionSort _ _
    have hpos : 0 < (List.insertionSort (fun a b : ℚ => a ≤ b) (a :: t)).length := by
      rw [List.length_insertionSort]
      simp
    exact ⟨sorted_getD_mono _ hsort _ _ (by omega) (by omega),
      sorted_getD_mono _ hsort _ _ (by omega) (by omega)⟩

theorem durationStep_some_ordered (s : EndpointStats) (d : ℚ) :
    (durationStep s (some d)).p50 ≤ (durationStep s (some d)).p95 ∧
    (durationStep s (some d)).p95 ≤ (durationStep s (some d)).p99 := by
  obtain ⟨s3, heq, hw⟩ := durationStep_some_eq s d
  rw [heq]
  exact percentileStep_ordered s3 (by rw [hw]; exact windowAppend_ne_nil _ _)

theorem update_percentiles_le (s : EndpointStats) (hit : EndpointHit) (c : Bool)
    (h50 : s.p50 ≤ s.p95) (h95 : s.p95 ≤ s.p99) :
    (s.update hit c).p50 ≤ (s.update hit c).p95 ∧
    (s.update hit c).p95 ≤ (s.update hit c).p99 := by
  simp only [EndpointStats.update]
  cases hd : hit.duration_ms with
  | none =>
    simp only [durationStep]
    rw [statusStep_p50, statusStep_p95, statusStep_p99]
    cases c <;> exact ⟨h50, h95⟩
  | some d => exact durationStep_some_ordered _ d

theorem applyUpdates_percentiles (e : String) (us : List (EndpointHit × Bool)) :
    (applyUpdates e us).p50 ≤ (applyUpdates e us).p95 ∧
    (applyUpdates e us).p95 ≤ (applyUpdates e us).p99 := by
  suffices h : ∀ (l : List (EndpointHit × Bool)) (s : EndpointStats),
      s.p50 ≤ s.p95 → s.p95 ≤ s.p99 →
      (l.foldl (fun s u => s.update u.1 u.2) s).p50 ≤
        (l.foldl (fun s u => s.update u.1 u.2) s).p95 ∧
      (l.foldl (fun s u => s.update u.1 u.2) s).p95 ≤
        (l.foldl (fun s u => s.update u.1 u.2) s).p99 by
    exact h us (statsInit e) le_rfl le_rfl
  intro l
  induction l with
  | nil => intro s h1 h2; exact ⟨h1, h2⟩
  | cons u us ih =>
    intro s h1 h2
    simp only [List.foldl_cons]
    obtain ⟨g1, g2⟩ := update_percentiles_le s u.1 u.2 h1 h2
    exact ih _ g1 g2

/-- C6: after any sequence of `EndpointStats.update` calls on one endpoint's
fresh stats the percentiles satisfy `p50 ≤ p95 ≤ p99` (this holds for every
update sequence, in particular for non-negative durations), and whenever the
rolling window is non-empty every index used by the percentile recomputation
(`n/2`, `19n/20`, `99n/100` on the sorted window of length `n`) is within
bounds. -/
theorem C6_percentiles_ordered (e : String) (us : List (EndpointHit × Bool)) :
    ((applyUpdates e us).p50 ≤ (applyUpdates e us).p95 ∧
      (applyUpdates e us).p95 ≤ (applyUpdates e us).p99) ∧
    ((applyUpdates e us).durations ≠ [] →
      (applyUpdates e us).durations.length / 2 < (applyUpdates e us).durations.length ∧
      19 * (applyUpdates e us).durations.length / 20 <
        (applyUpdates e us).durations.length ∧
      99 * (applyUpdates e us).durations.length / 100 <
        (applyUpdates e us).durations.length) := by
  refine ⟨applyUpdates_percentiles e us, fun hne => ?_⟩
  have hpos : 0 < (applyUpdates e us).durations.length := List.length_pos.mpr hne
  omega

/-- Witness for C6 at the single update `durHit 1` (counted), with the
non-empty-window hypothesis discharged. -/
theorem C6_percentiles_ordered_witness :
    ((applyUpdates "/e" [(durHit 1, true)]).p50 ≤
        (applyUpdates "/e" [(durHit 1, true)]).p95 ∧
      (applyUpdates "/e" [(durHit 1, true)]).p95 ≤
        (applyUpdates "/e" [(durHit 1, true)]).p99) ∧
    ((applyUpdates "/e" [(durHit 1, true)]).durations.length / 2 <
        (applyUpdates "/e" [(durHit 1, true)]).durations.length ∧
      19 * (applyUpdates "/e" [(durHit 1, true)]).durations.length / 20 <
        (applyUpdates "/e" [(durHit 1, true)]).durations.length ∧
      99 * (applyUpdates "/e" [(durHit 1, true)]).durations.length / 100 <
        (applyUpdates "/e" [(durHit 1, true)]).durations.length) :=
  ⟨(C6_percentiles_ordered "/e" [(durHit 1, true)]).1,
    (C6_percentiles_ordered "/e" [(durHit 1, true)]).2 (by decide)⟩

/-- The `data` dict of a legacy `request` event as read by
`FastAPITUI._handle_legacy_request` (`data.get(...)` of each key; a key the
producer did not send is `none` / `[]` / `false`). -/
structure RequestData where
  id : String
  endpoint : String
  method : String
  status_code : Option Int
  status : Option Int
  duration_ms : Option ℚ
  duration : Option ℚ
  client : Option String
  timestamp : Option Nat
  request_params : Option (List (String × String))
  request_body : Option JsonV
  request_headers : Option (List (String × String))
  response_body : Option JsonV
  runtime_logs : List JsonV
  exception : Option JsonV
  pending : Bool
  completed : Bool

/-- Python `a or b` on optional ints (`data.get("status_code") or
data.get("status")`): `None` and `0` are falsy, and `b` is returned verbatim
when `a` is falsy. -/
def orFalsyInt (a b : Option Int) : Option Int :=
  match a with
  | some v => if v = 0 then b else some v
  | none => b

/-- Python `a or b` on optional floats (`data.get("duration_ms") or
data.get("duration")`): `None` and `0.0` are falsy. -/
def orFalsyQ (a b : Option ℚ) : Option ℚ :=
  match a with
  | some v => if v = 0 then b else some v
  | none => b

/-- The dispatcher's in-memory state: `self.endpoint_viewers` (each viewer's
`hits` list, newest first) and `self.endpoint_stats`, both Python dicts
modelled as association lists in insertion order. -/
structure TUIState where
  viewers : List (String × List EndpointHit)
  endpoint_stats : List (String × EndpointStats)

/-- Python dict assignment `m[k] = v` on the association-list model: an
existing key keeps its position, a new key is appended. -/
def updateA {α : Type} (m : List (String × α)) (k : String) (v : α) :
    List (String × α) :=
  if (m.lookup k).isSome then
    m.map (fun kv => if kv.1 = k then (k, v) else kv)
  else m ++ [(k, v)]

/-- The scan-and-replace of `RequestViewer.add_hit` when the id is already
present: the first hit with the same id is replaced. -/
def replaceFirstById (hits : List EndpointHit) (h : EndpointHit) :
    List EndpointHit :=
  match hits with
  | [] => []
  | x :: xs => if x.id = h.id then h :: xs else x :: replaceFirstById xs h

/-- `RequestViewer.add_hit` from `widgets/request_viewer.py`: replace the
first hit with the same id if present, otherwise insert at the front and
truncate the list to 100 entries. -/
def add_hit (hits : List EndpointHit) (h : EndpointHit) : List EndpointHit :=
  if hits.any (fun x => x.id = h.id) then replaceFirstById hits h
  else (h :: hits).take 100

/-- `FastAPITUI._handle_hit`: add the hit to its endpoint's viewer (creating
the viewer if needed), then update the endpoint's stats.  When the endpoint
has no stats entry yet, the Python source raises `NameError` at
`EndpointStats(endpoint=endpoint)` — the name `endpoint` is undefined inside
`_handle_hit` — so no stats entry is created and no stats update runs; the
caller (`process_events`) swallows the exception, leaving the hit insertion
in place.  The embedding returns exactly that observable result. -/
def handle_hit (st : TUIState) (hit : EndpointHit) : TUIState :=
  let hits := (st.viewers.lookup hit.endpoint).getD []
  let viewers2 := updateA st.viewers hit.endpoint (add_hit hits hit)
  match st.endpoint_stats.lookup hit.endpoint with
  | some s =>
    { viewers := viewers2,
      endpoint_stats := updateA st.endpoint_stats hit.endpoint (s.update hit true) }
  | none => { viewers := viewers2, endpoint_stats := st.endpoint_stats }

/-- The `EndpointHit` built by the PENDING branch of
`_handle_legacy_request`: `id=request_id or str(uuid.uuid4())` (the fresh
uuid is the `freshId` parameter), no status/duration/response, `pending=True`;
`timestamp` falls back to the current tick `now`. -/
def mkPendingHit (data : RequestData) (freshId : String) (now : Nat) :
    EndpointHit :=
  { id := if data.id = "" then freshId else data.id,
    endpoint := data.endpoint, method := data.method,
    status_code := none, duration_ms := none,
    timestamp := data.timestamp.getD now,
    client := data.client.getD "unknown",
    request_params := data.request_params,
    request_body := data.request_body,
    request_headers := data.request_headers,
    response_body := none, response_headers := none,
    runtime_logs := data.runtime_logs,
    exceptions := [], pending := true, error := none }

/-- The fallback `EndpointHit` built by the COMPLETED branch of
`_handle_legacy_request` when no hit with the event's id exists in the
event's endpoint's viewer. -/
def mkCompletedHit (data : RequestData) (freshId : String) (now : Nat) :
    EndpointHit :=
  { id := if data.id = "" then freshId else data.id,
    endpoint := data.endpoint, method := data.method,
    status_code := orFalsyInt data.status_code data.status,
    duration_ms := orFalsyQ data.duration_ms data.duration,
    timestamp := data.timestamp.getD now,
    client := data.client.getD "unknown",
    request_params := data.request_params,
    request_body := data.request_body,
    request_headers := data.request_headers,
    response_body := data.response_body,
    response_headers := none,
    runtime_logs := data.runtime_logs,
    exceptions := [], pending := false, error := none }

/-- The in-place field update of the COMPLETED branch of
`_handle_legacy_request` on an existing hit: status/duration via the Python
`or` fallbacks, `response_body` and `runtime_logs` overwritten
unconditionally, `pending := False`, and — when the event carries an
`exception` payload — the exception APPENDED to the hit's list. -/
def applyCompletedUpdate (hit : EndpointHit) (data : RequestData) :
    EndpointHit :=
  { hit with
    status_code := orFalsyInt data.status_code data.status,
    duration_ms := orFalsyQ data.duration_ms data.duration,
    response_body := data.response_body,
    runtime_logs := data.runtime_logs,
    pending := false,
    exceptions := match data.exception with
      | some e => hit.exceptions ++ [e]
      | none => hit.exceptions }

/-- `FastAPITUI._handle_legacy_request`.  The existing hit is searched only
in the viewer of the event's own `endpoint` string, by id.  PENDING events
create a new hit only when none was found.  COMPLETED events with an
existing hit mutate it in place (the mutated object is the one stored in the
viewer, so the update is visible whether or not the subsequent
`add_hit`/save run); when the event carries an `exception` payload the
Python line `existing_hit.exception = exc_data` raises `ValueError`
(`EndpointHit` has no such field) after the field updates, so the stats
update below it is skipped — the caller swallows the error.  Otherwise the
stats are updated with `count_hit=False` when the endpoint has stats, and
created-and-counted when it does not.  A COMPLETED event without an
existing hit falls back to creating a completed hit via `_handle_hit`. -/
def handleLegacyRequest (st : TUIState) (data : RequestData)
    (freshId : String) (now : Nat) : TUIState :=
  let existing := (st.viewers.lookup data.endpoint).getD [] |>.find?
    (fun h => h.id = data.id)
  if data.pending || !data.completed then
    match existing with
    | some _ => st
    | none => handle_hit st (mkPendingHit data freshId now)
  else
    match existing with
    | some hit =>
      let hit2 := applyCompletedUpdate hit data
      let viewers2 := updateA st.viewers data.endpoint
        (replaceFirstById ((st.viewers.lookup data.endpoint).getD []) hit2)
      match data.exception with
      | some _ => { viewers := viewers2, endpoint_stats := st.endpoint_stats }
      | none =>
        match st.endpoint_stats.lookup data.endpoint with
        | some s =>
          { viewers := viewers2,
            endpoint_stats :=
              updateA st.endpoint_stats data.endpoint (s.update hit2 false) }
        | none =>
          { viewers := viewers2,
            endpoint_stats := updateA st.endpoint_stats data.endpoint
              ((statsInit data.endpoint).update hit2 true) }
    | none => handle_hit st (mkCompletedHit data freshId now)

/-- Draining a queue of legacy `request` events (each event paired with the
fresh uuid and clock tick its processing would draw). -/
def processLegacyEvents (st : TUIState)
    (evs : List (RequestData × String × Nat)) : TUIState :=
  evs.foldl (fun st e => handleLegacyRequest st e.1 e.2.1 e.2.2) st

/-- All hits carrying a given correlation id anywhere in the dispatcher's
in-memory viewers. -/
def hitsWithId (st : TUIState) (i : String) : List EndpointHit :=
  st.viewers.foldr (fun ev acc => ev.2.filter (fun h => h.id = i) ++ acc) []

theorem applyCompletedUpdate_id (h : EndpointHit) (c : RequestData) :
    (applyCompletedUpdate h c).id = h.id := rfl

theorem handleCompleted_step (e : String) (h : EndpointHit)
    (stats : List (String × EndpointStats)) (c : RequestData)
    (fid : String) (now : Nat)
    (hid : h.id = c.id) (hce : c.endpoint = e)
    (hcp : c.pending = false) (hcc : c.completed = true) :
    ∃ stats2, handleLegacyRequest ⟨[(e, [h])], stats⟩ c fid now =
      ⟨[(e, [applyCompletedUpdate h c])], stats2⟩ := by
  have hlook : List.lookup e [(e, [h])] = some [h] := by simp [List.lookup]
  have hfind : List.find? (fun x => decide (x.id = c.id)) [h] = some h := by
    simp [List.find?, hid]
  have hrep : replaceFirstById [h] (applyCompletedUpdate h c) =
      [applyCompletedUpdate h c] := by
    simp [replaceFirstById, applyCompletedUpdate]
  have hupd : updateA [(e, [h])] e [applyCompletedUpdate h c] =
      [(e, [applyCompletedUpdate h c])] := by
    simp [updateA, List.lookup]
  simp only [handleLegacyRequest, hce, hcp, hcc, Bool.not_true, Bool.or_false,
    Bool.false_eq_true, if_false, hlook, Option.getD_some, hfind, hrep, hupd]
  cases c.exception with
  | some v => exact ⟨stats, rfl⟩
  | none => cases List.lookup e stats <;> exact ⟨_, rfl⟩

theorem completed_run (e i : String) (cs : List (RequestData × String × Nat)) :
    (∀ c ∈ cs, c.1.id = i ∧ c.1.endpoint = e ∧
      c.1.pending = false ∧ c.1.completed = true) →
    ∀ (h : EndpointHit) (stats : List (String × EndpointStats)), h.id = i →
      ∃ (h2 : EndpointHit) (stats2 : List (String × EndpointStats)),
        processLegacyEvents ⟨[(e, [h])], stats⟩ cs = ⟨[(e, [h2])], stats2⟩ ∧
        h2.id = i ∧
        h2.exceptions = h.exceptions ++ cs.filterMap (fun c => c.1.exception) ∧
        (cs = [] → h2 = h) ∧
        (∀ cl, cs.getLast? = some cl →
          h2.pending = false ∧
          h2.status_code = orFalsyInt cl.1.status_code cl.1.status ∧
          h2.duration_ms = orFalsyQ cl.1.duration_ms cl.1.duration ∧
          h2.response_body = cl.1.response_body ∧
          h2.runtime_logs = cl.1.runtime_logs) := by
  induction cs with
  | nil =>
    intro _ h stats hid
    exact ⟨h, stats, rfl, hid, by simp, fun _ => rfl, by simp⟩
  | cons c cs ih =>
    intro hcs h stats hid
    obtain ⟨hcid, hce, hcp, hcc⟩ := hcs c (List.mem_cons_self c cs)
    obtain ⟨stats1, hstep⟩ := handleCompleted_step e h stats c.1 c.2.1 c.2.2
      (hid.trans hcid.symm) hce hcp hcc
    have hid2 : (applyCompletedUpdate h c.1).id = i := by
      rw [applyCompletedUpdate_id, hid]
    obtain ⟨h2, stats2, hrun, hid3, hexc, hnil, hlast⟩ :=
      ih (fun x hx => hcs x (List.mem_cons_of_mem c hx))
        (applyCompletedUpdate h c.1) stats1 hid2
    refine ⟨h2, stats2, ?_, hid3, ?_, ?_, ?_⟩
    · show List.foldl _ _ (c :: cs) = _
      rw [List.foldl_cons]
      show processLegacyEvents
        (handleLegacyRequest ⟨[(e, [h])], stats⟩ c.1 c.2.1 c.2.2) cs = _
      rw [hstep]
      exact hrun
    · rw [hexc]
      simp only [applyCompletedUpdate, List.filterMap_cons]
      cases c.1.exception <;> simp
    · intro habs; exact absurd habs (List.cons_ne_nil c cs)
    · intro cl hcl
      cases hcse : cs with
      | nil =>
        subst hcse
        have hcl2 : c = cl := by
          simpa [List.getLast?] using hcl
        have hh2 : h2 = applyCompletedUpdate h c.1 := hnil rfl
        rw [hh2, ← hcl2]
        exact ⟨rfl, rfl, rfl, rfl, rfl⟩
      | cons c2 cs2 =>
        subst hcse
        apply hlast
        rw [← hcl]
        simp [List.getLast?_cons_cons]

theorem pending_step (p : RequestData) (fid : String) (now : Nat)
    (hp : p.pending = true) :
    handleLegacyRequest ⟨[], []⟩ p fid now =
      ⟨[(p.endpoint, [mkPendingHit p fid now])], []⟩ := by
  simp only [handleLegacyRequest, hp, Bool.true_or, if_true]
  simp [handle_hit, updateA, add_hit, mkPendingHit, List.lookup]

/-- C1 (amended): starting from a fresh dispatcher state, after one Pending
event (with a non-empty id, as produced by the middleware) followed by any
non-empty run of Completed events that carry the same id AND the same
endpoint string, exactly one Hit exists in memory: it sits in that endpoint's
viewer, its `pending` is false, its `status_code`, `duration_ms`
(each read through the Python `or` fallback `status_code or status`,
`duration_ms or duration`), `response_body` and `runtime_logs` equal those of
the last Completed event, and its `exceptions` list is the concatenation of
the exception payloads of ALL the Completed events (the dispatcher appends,
it does not overwrite); no Completed event for the existing id creates a
second Hit.  The same-endpoint hypothesis is necessary: the dispatcher keys
its hit lookup by the event's endpoint string (see the counterexample). -/
theorem C1_hit_lifecycle (p : RequestData) (fid : String) (now : Nat)
    (cs : List (RequestData × String × Nat))
    (hp : p.pending = true) (hid : p.id ≠ "")
    (hcs : ∀ c ∈ cs, c.1.id = p.id ∧ c.1.endpoint = p.endpoint ∧
      c.1.pending = false ∧ c.1.completed = true)
    (hne : cs ≠ []) :
    ∃ h2 : EndpointHit,
      (processLegacyEvents ⟨[], []⟩ ((p, (fid, now)) :: cs)).viewers =
        [(p.endpoint, [h2])] ∧
      h2.id = p.id ∧ h2.pending = false ∧
      h2.exceptions = cs.filterMap (fun c => c.1.exception) ∧
      (∀ cl, cs.getLast? = some cl →
        h2.status_code = orFalsyInt cl.1.status_code cl.1.status ∧
        h2.duration_ms = orFalsyQ cl.1.duration_ms cl.1.duration ∧
        h2.response_body = cl.1.response_body ∧
        h2.runtime_logs = cl.1.runtime_logs) := by
  have hpend := pending_step p fid now hp
  have hhid : (mkPendingHit p fid now).id = p.id := by
    simp [mkPendingHit, hid]
  obtain ⟨h2, stats2, hrun, hid2, hexc, _, hlast⟩ :=
    completed_run p.endpoint p.id cs hcs (mkPendingHit p fid now) [] hhid
  obtain ⟨cl0, hcl0⟩ := Option.isSome_iff_exists.mp
    (List.getLast?_isSome.mpr hne)
  refine ⟨h2, ?_, hid2, ?_, ?_, ?_⟩
  · show (processLegacyEvents
      (handleLegacyRequest ⟨[], []⟩ p fid now) cs).viewers = _
    rw [hpend, hrun]
  · exact (hlast cl0 hcl0).1
  · rw [hexc]
    simp [mkPendingHit]
  · intro cl hcl
    exact ⟨(hlast cl hcl).2.1, (hlast cl hcl).2.2.1,
      (hlast cl hcl).2.2.2.1, (hlast cl hcl).2.2.2.2⟩

/-- A baseline legacy request event: pending `GET /e` with id `"x"` and an
otherwise empty payload. -/
def rdBase : RequestData :=
  { id := "x", endpoint := "/e", method := "GET", status_code := none,
    status := none, duration_ms := none, duration := none, client := none,
    timestamp := none, request_params := none, request_body := none,
    request_headers := none, response_body := none, runtime_logs := [],
    exception := none, pending := true, completed := false }

/-- A completed event for `"x"` on `/e` with status, duration, body, logs. -/
def rdComp200 : RequestData := { rdBase with
  pending := false, completed := true, status_code := some 200,
  duration_ms := some 3,
  response_body := some (JsonV.obj [("ok", JsonV.bool true)]),
  runtime_logs := [JsonV.str "log1"] }

/-- Witness for C1 (amended): one Pending and one Completed event for id
`"x"` on endpoint `/e`. -/
theorem C1_hit_lifecycle_witness :
    ∃ h2 : EndpointHit,
      (processLegacyEvents ⟨[], []⟩
        ((rdBase, ("u0", 0)) :: [(rdComp200, "u1", 1)])).viewers =
        [(rdBase.endpoint, [h2])] ∧
      h2.id = rdBase.id ∧ h2.pending = false ∧
      h2.exceptions = [(rdComp200, ("u1", (1 : Nat)))].filterMap
        (fun c => c.1.exception) ∧
      (∀ cl, [(rdComp200, ("u1", (1 : Nat)))].getLast? = some cl →
        h2.status_code = orFalsyInt cl.1.status_code cl.1.status ∧
        h2.duration_ms = orFalsyQ cl.1.duration_ms cl.1.duration ∧
        h2.response_body = cl.1.response_body ∧
        h2.runtime_logs = cl.1.runtime_logs) :=
  C1_hit_lifecycle rdBase "u0" 0 [(rdComp200, "u1", 1)] rfl (by decide)
    (by
      intro c hc
      rw [List.mem_singleton] at hc
      subst hc
      exact ⟨rfl, rfl, rfl, rfl⟩)
    (by simp)

/-- Pending event whose endpoint is the route template. -/
def rdPendTpl : RequestData := { rdBase with
  endpoint := "/items/{id}" }

/-- Completed event for the same id whose endpoint is the raw URL path, as
`TUIMiddleware` emits for parameterised routes (`_send_pending_event` uses
the route template, `_send_completed_event` uses `request.url.path`). -/
def rdCompRaw : RequestData := { rdBase with
  endpoint := "/items/9", pending := false, completed := true,
  status_code := some 200 }

/-- Pending event for id `"y"` on `/f`. -/
def rdPendY : RequestData := { rdBase with
  id := "y", endpoint := "/f" }

/-- First completed event for `"y"`, carrying exception payload `"e1"`. -/
def rdCompE1 : RequestData := { rdBase with
  id := "y", endpoint := "/f", pending := false, completed := true,
  exception := some (JsonV.str "e1") }

/-- Second completed event for `"y"`, carrying exception payload `"e2"`. -/
def rdCompE2 : RequestData := { rdBase with
  id := "y", endpoint := "/f", pending := false, completed := true,
  exception := some (JsonV.str "e2") }

/-- C1 counterexample, two parts.  (1) One Pending for id `"x"` under
endpoint `/items/{id}` followed by one Completed for the same id under
endpoint `/items/9` leaves TWO hits with that id in memory, the first still
pending — so after one Pending and one Completed with that id neither
"exactly one Hit" nor "pending is false" holds as claimed.  (2) One Pending
and two Completed events for id `"y"` (same endpoint), each Completed
carrying an exception payload, leave the unique hit with `exceptions =
[e1, e2]`, which differs from the last Completed event's exception list
`[e2]` — the dispatcher appends exceptions instead of overwriting them. -/
theorem C1_counterexample :
    ((hitsWithId (processLegacyEvents ⟨[], []⟩
      [(rdPendTpl, "u0", 0), (rdCompRaw, "u1", 1)]) "x").length = 2 ∧
    (hitsWithId (processLegacyEvents ⟨[], []⟩
      [(rdPendTpl, "u0", 0), (rdCompRaw, "u1", 1)]) "x").map
        (fun h => h.pending) = [true, false]) ∧
    (((hitsWithId (processLegacyEvents ⟨[], []⟩
      [(rdPendY, "u0", 0), (rdCompE1, "u1", 1), (rdCompE2, "u2", 2)])
      "y").map (fun h => h.exceptions)) =
      [[JsonV.str "e1", JsonV.str "e2"]] ∧
    [JsonV.str "e1", JsonV.str "e2"] ≠ [JsonV.str "e2"]) :=
  ⟨⟨by decide, by decide⟩, by rfl, by simp⟩

/-- Pending event for id `"X"` on `/e4`. -/
def rdPendX4 : RequestData := { rdBase with
  id := "X", endpoint := "/e4" }

/-- Pending event for id `"Y"` on `/e4`. -/
def rdPendY4 : RequestData := { rdBase with
  id := "Y", endpoint := "/e4" }

/-- Completed event for id `"X"` on `/e4`. -/
def rdCompX4 : RequestData := { rdBase with
  id := "X", endpoint := "/e4", pending := false, completed := true,
  status_code := some 200 }

/-- Completed event for id `"Y"` on `/e4`. -/
def rdCompY4 : RequestData := { rdBase with
  id := "Y", endpoint := "/e4", pending := false, completed := true,
  status_code := some 200 }

/-- The dispatcher state after Pending X, Pending Y, Completed X,
Completed Y on the single fresh endpoint `/e4`. -/
def stC4 : TUIState :=
  processLegacyEvents ⟨[], []⟩
    [(rdPendX4, "u0", 0), (rdPendY4, "u1", 1),
     (rdCompX4, "u2", 2), (rdCompY4, "u3", 3)]

/-- C4: evaluation of the code at the failing input.  Two distinct
correlation ids `X`, `Y` are observed and completed on one fresh endpoint,
yet `total_hits` for that endpoint ends at 1, not 2: the pending events
never create a stats entry (`_handle_hit` raises `NameError` on its
`EndpointStats(endpoint=endpoint)` line for a fresh endpoint), the first
Completed event creates the entry with `count_hit=True`, and the second
Completed event updates it with `count_hit=False`. -/
theorem C4_total_hits_failing_input :
    ((stC4.endpoint_stats.lookup "/e4").map (fun s => s.total_hits))
        = some 1 ∧
    (hitsWithId stC4 "X").length = 1 ∧
    (hitsWithId stC4 "Y").length = 1 ∧
    (hitsWithId stC4 "X").map (fun h => h.pending) = [false] ∧
    (hitsWithId stC4 "Y").map (fun h => h.pending) = [false] := by
  refine ⟨?_, by decide, by decide, by decide, by decide⟩
  decide

/-- `LogLevel` enum from `config.py`. -/
inductive LogLevel where
  | debug : LogLevel
  | info : LogLevel
  | warning : LogLevel
  | error : LogLevel
  | critical : LogLevel
deriving DecidableEq

/-- The `.value` string of each `LogLevel` member. -/
def LogLevel.value : LogLevel → String
  | .debug => "debug"
  | .info => "info"
  | .warning => "warning"
  | .error => "error"
  | .critical => "critical"

/-- `LogLevel(s)`: the member with that value, or a `ValueError` (`none`). -/
def logLevelOfString (s : String) : Option LogLevel :=
  if s = "debug" then some .debug
  else if s = "info" then some .info
  else if s = "warning" then some .warning
  else if s = "error" then some .error
  else if s = "critical" then some .critical
  else none

/-- The runtime type of the `exclude_paths` field.  The dataclass annotates
`Set[str]`, but its default factory is the literal `{}` — in Python the
empty DICT, not a set.  Membership (`in`), `list(...)` and `set(...)` treat
a dict as its key collection, while Python `==` never equates a dict with a
set, even when both are empty.  A collection is represented by its iteration
sequence. -/
inductive StrColl where
  | pyset : List String → StrColl
  | pydict : List String → StrColl
deriving DecidableEq

/-- `list(c)` / iteration: the elements of a set, the keys of a dict. -/
def StrColl.elems : StrColl → List String
  | .pyset l => l
  | .pydict l => l

/-- Python `x in c` on either collection kind. -/
def StrColl.containsStr (c : StrColl) (s : String) : Bool :=
  c.elems.contains s

/-- `TUIConfig` from `config.py`, every field.  Set-typed fields other than
`exclude_paths` have set literals or `set()` as defaults and are represented
by their iteration sequences; `endpoint_replacements` is a dict in insertion
order. -/
structure TUIConfig where
  host : String
  port : Nat
  reload : Bool
  reload_dirs : List String
  enable_exceptions : Bool
  enable_request_logging : Bool
  enable_response_body : Bool
  enable_runtime_logs : Bool
  enable_stats : Bool
  enable_persistence : Bool
  log_level : LogLevel
  log_to_file : Bool
  log_file_path : String
  show_sidebar : Bool
  show_stats_panel : Bool
  max_hits_display : Nat
  max_log_lines : Nat
  exclude_paths : StrColl
  exclude_methods : List String
  strip_prefixes : List String
  endpoint_replacements : List (String × String)
  mask_headers : List String
  mask_body_fields : List String
  db_path : String
deriving DecidableEq

/-- The field defaults of `TUIConfig()`: note `exclude_paths` is the empty
dict (`default_factory=lambda: {}` in the source). -/
def defaultConfig : TUIConfig :=
  { host := "0.0.0.0", port := 8000, reload := false, reload_dirs := ["app"],
    enable_exceptions := true, enable_request_logging := true,
    enable_response_body := true, enable_runtime_logs := true,
    enable_stats := true, enable_persistence := true,
    log_level := .info, log_to_file := false, log_file_path := "tui.log",
    show_sidebar := true, show_stats_panel := true,
    max_hits_display := 100, max_log_lines := 1000,
    exclude_paths := .pydict [], exclude_methods := [],
    strip_prefixes := [], endpoint_replacements := [],
    mask_headers := ["authorization", "x-api-key", "cookie", "set-cookie"],
    mask_body_fields := ["password", "secret", "token", "api_key", "apikey",
      "access_token", "refresh_token"],
    db_path := "tui_events.db" }

/-- Python `str.lower()` on one character, for the ASCII range that header,
field and method names use. -/
def pyLowerChar (c : Char) : Char :=
  if 'A' ≤ c ∧ c ≤ 'Z' then Char.ofNat (c.toNat + 32) else c

/-- Python `str.lower()` (ASCII). -/
def pyLower (s : String) : String := ⟨s.data.map pyLowerChar⟩

/-- Python `str.upper()` on one character (ASCII). -/
def pyUpperChar (c : Char) : Char :=
  if 'a' ≤ c ∧ c ≤ 'z' then Char.ofNat (c.toNat - 32) else c

/-- Python `str.upper()` (ASCII). -/
def pyUpper (s : String) : String := ⟨s.data.map pyUpperChar⟩

/-- `TUIConfig.should_log_request`: global toggle, exact-string path
exclusion, then upper-cased method exclusion. -/
def TUIConfig.should_log_request (cfg : TUIConfig) (path method : String) :
    Bool :=
  if !cfg.enable_request_logging then false
  else if cfg.exclude_paths.containsStr path then false
  else if cfg.exclude_methods.contains (pyUpper method) then false
  else true

mutual

/-- `TUIConfig.scrub_data`: recursively masks any dict key whose lower-cased
name is in the mask set, replacing the value with the sentinel `"***"`. -/
def scrub_data (mask : List String) : JsonV → JsonV
  | .obj fields => .obj (scrubFields mask fields)
  | .arr xs => .arr (scrubList mask xs)
  | v => v

/-- Per-entry masking of a dict's fields used by `scrub_data`. -/
def scrubFields (mask : List String) :
    List (String × JsonV) → List (String × JsonV)
  | [] => []
  | (k, v) :: rest =>
    (if mask.contains (pyLower k) then (k, JsonV.str "***")
      else (k, scrub_data mask v)) :: scrubFields mask rest

/-- Element-wise recursion of `scrub_data` through a list. -/
def scrubList (mask : List String) : List JsonV → List JsonV
  | [] => []
  | v :: rest => scrub_data mask v :: scrubList mask rest

end

/-- Whether `pat` occurs as a contiguous sublist of `l`. -/
def listHasInfix (l pat : List Char) : Bool :=
  match l with
  | [] => pat.isEmpty
  | _ :: xs => pat.isPrefixOf l || listHasInfix xs pat

/-- Python `pat in s` on strings. -/
def strContainsSub (s pat : String) : Bool :=
  listHasInfix s.toList pat.toList

/-- `TUIMiddleware._capture_request_body`.  Byte-level parsing is abstracted:
`parsed` is the value the branch parser (`json.loads`, url-encoded or
multipart parsing) would produce for the body bytes, `none` standing for an
empty body or a parse failure (the source's `except` returns `None`).  The
function returns the parsed value UNCHANGED for the three parse branches —
no masking is applied anywhere in it — and a size-only descriptor for other
content types. -/
def captureRequestBody (method contentType : String) (parsed : Option JsonV)
    (size : Nat) : Option JsonV :=
  if !(["POST", "PUT", "PATCH"].contains method) then none
  else if size = 0 then none
  else if strContainsSub contentType "application/json" then parsed
  else if strContainsSub contentType "application/x-www-form-urlencoded" then
    parsed
  else if strContainsSub contentType "multipart/form-data" then parsed
  else some (JsonV.obj
    [("_note", JsonV.str ("binary data (" ++ contentType ++ ")")),
     ("size", JsonV.num size)])

/-- Key lookup in a JSON object value. -/
def jsonLookup (v : JsonV) (k : String) : Option JsonV :=
  match v with
  | .obj fs => fs.lookup k
  | _ => none

/-- `TUIMiddleware._capture_headers`: only `content-type`, `user-agent` and
`authorization` are captured; `authorization` is replaced by `"***"` when
present; falsy (absent or empty) values are dropped.  `none` stands for an
absent-or-empty header. -/
def captureHeaders (ct ua auth : Option String) : List (String × String) :=
  (match ct with
    | some v => [("content-type", v)]
    | none => []) ++
  (match ua with
    | some v => [("user-agent", v)]
    | none => []) ++
  (match auth with
    | some _ => [("authorization", "***")]
    | none => [])

/-- One request as seen by `TUIMiddleware.dispatch`: the raw URL path, the
matched route template (`_get_endpoint_path`), the method, client, query
params, the parsed body (as for `captureRequestBody`), the selected headers,
and the handler outcome (status, captured response body, accumulated
runtime logs). -/
structure MWRequest where
  urlPath : String
  routeTemplate : String
  method : String
  client : String
  queryParams : Option (List (String × String))
  bodyParsed : Option JsonV
  bodySize : Nat
  contentType : Option String
  userAgent : Option String
  authorization : Option String
  statusCode : Int
  responseBody : Option JsonV
  runtimeLogs : List JsonV

/-- The `data` dict of `_send_pending_event`: route-template endpoint, no
status/duration/response, `pending=True, completed=False`. -/
def sendPendingEvent (req : MWRequest) (requestId : String) (start : Nat) :
    RequestData :=
  { id := requestId, endpoint := req.routeTemplate, method := req.method,
    status_code := none, status := none, duration_ms := none,
    duration := none, client := some req.client, timestamp := some start,
    request_params := req.queryParams,
    request_body := captureRequestBody req.method (req.contentType.getD "")
      req.bodyParsed req.bodySize,
    request_headers := some (captureHeaders req.contentType req.userAgent
      req.authorization),
    response_body := none, runtime_logs := [], exception := none,
    pending := true, completed := false }

/-- The `data` dict of `_send_completed_event`: RAW URL path endpoint
(`request.url.path`, not the route template), status, duration, captured
response body, accumulated runtime logs, `pending=False, completed=True`. -/
def sendCompletedEvent (req : MWRequest) (requestId : String) (start : Nat)
    (durationMs : ℚ) : RequestData :=
  { id := requestId, endpoint := req.urlPath, method := req.method,
    status_code := some req.statusCode, status := none,
    duration_ms := some durationMs, duration := none,
    client := some req.client, timestamp := some start,
    request_params := req.queryParams,
    request_body := captureRequestBody req.method (req.contentType.getD "")
      req.bodyParsed req.bodySize,
    request_headers := some (captureHeaders req.contentType req.userAgent
      req.authorization),
    response_body := req.responseBody, runtime_logs := req.runtimeLogs,
    exception := none, pending := false, completed := true }

/-- The legacy `request` events `TUIMiddleware.dispatch` enqueues for one
handled request: a Pending event followed by a Completed event with the same
generated correlation id.  `dispatch` holds no configuration — it never
calls `TUIConfig.should_log_request` (or performs any other exclusion
check), so this pair is emitted for every request regardless of
`exclude_paths`/`exclude_methods`. -/
def dispatchEvents (req : MWRequest) (requestId : String) (start : Nat)
    (durationMs : ℚ) : List RequestData :=
  [sendPendingEvent req requestId start,
   sendCompletedEvent req requestId start durationMs]

/-- A configuration excluding exactly the path `/items/42`. -/
def cfgExcl42 : TUIConfig := { defaultConfig with
  exclude_paths := .pyset ["/items/42"] }

/-- A plain `GET /items/42` request with no body. -/
def req42 : MWRequest :=
  { urlPath := "/items/42", routeTemplate := "/items/42", method := "GET",
    client := "127.0.0.1", queryParams := none, bodyParsed := none,
    bodySize := 0, contentType := none, userAgent := none,
    authorization := none, statusCode := 200,
    responseBody := some (JsonV.obj [("ok", JsonV.bool true)]),
    runtimeLogs := [] }

/-- The same request on the non-excluded path `/items/43`. -/
def req43 : MWRequest := { req42 with
  urlPath := "/items/43", routeTemplate := "/items/43" }

/-- C2: evaluation of the code at the failing input.  With
`exclude_paths={"/items/42"}` the configuration's `should_log_request`
returns `False` for `GET /items/42`, yet the middleware emits its
Pending+Completed pair for that request all the same — `dispatch` performs
no exclusion check (the claim's second half, that `/items/43` yields a
matching Pending+Completed pair with one shared id, does hold, and in fact
holds for `/items/42` too). -/
theorem C2_excluded_path_still_emits :
    cfgExcl42.should_log_request "/items/42" "GET" = false ∧
    (dispatchEvents req42 "rid42" 0 5).length = 2 ∧
    (dispatchEvents req42 "rid42" 0 5).map (fun d => d.id) =
      ["rid42", "rid42"] ∧
    (dispatchEvents req42 "rid42" 0 5).map (fun d => (d.pending, d.completed))
      = [(true, false), (false, true)] ∧
    (dispatchEvents req42 "rid42" 0 5).map (fun d => d.endpoint) =
      ["/items/42", "/items/42"] ∧
    cfgExcl42.should_log_request "/items/43" "GET" = true ∧
    (dispatchEvents req43 "rid43" 0 5).map
      (fun d => (d.id, d.pending, d.completed)) =
      [("rid43", true, false), ("rid43", false, true)] := by
  refine ⟨by decide, rfl, rfl, rfl, rfl, by decide, rfl⟩

/-- A JSON request body containing a field named `password`. -/
def bodyPw : JsonV :=
  JsonV.obj [("password", JsonV.str "hunter2"), ("username", JsonV.str "al")]

/-- C3: evaluation of the code at the failing input.  For a `POST` with
content type `application/json` and body `{"password": "hunter2",
"username": "al"}`, `_capture_request_body` returns the parsed body
unchanged: the emitted/captured output maps `password` to its original
value `"hunter2"`, although `password` is in the configured mask set and
`TUIConfig.scrub_data` — which the middleware never calls on request
bodies — would map it to the sentinel `"***"`. -/
theorem C3_body_capture_not_masked :
    captureRequestBody "POST" "application/json" (some bodyPw) 42 =
      some bodyPw ∧
    jsonLookup bodyPw "password" = some (JsonV.str "hunter2") ∧
    defaultConfig.mask_body_fields.contains "password" = true ∧
    jsonLookup (scrub_data defaultConfig.mask_body_fields bodyPw) "password"
      = some (JsonV.str "***") ∧
    (sendPendingEvent { req42 with
      method := "POST", contentType := some "application/json",
      bodyParsed := some bodyPw, bodySize := 42 } "rid" 0).request_body =
      some bodyPw := by
  have hpw : defaultConfig.mask_body_fields.contains (pyLower "password")
      = true := by decide
  have hun : defaultConfig.mask_body_fields.contains (pyLower "username")
      = false := by decide
  refine ⟨rfl, rfl, by decide, ?_, rfl⟩
  simp [bodyPw, scrub_data, scrubFields, hpw, hun, jsonLookup, List.lookup]

/-- The parsed JSON dict produced by `TUIConfig.to_json_payload`: every
dataclass field, set-typed fields as lists, the enum as its value string.
JSON serialisation of this dict is injective and lossless for these field
types, so the payload is modelled as the parsed dict itself. -/
structure ConfigPayload where
  host : String
  port : Nat
  reload : Bool
  reload_dirs : List String
  enable_exceptions : Bool
  enable_request_logging : Bool
  enable_response_body : Bool
  enable_runtime_logs : Bool
  enable_stats : Bool
  enable_persistence : Bool
  log_level : String
  log_to_file : Bool
  log_file_path : String
  show_sidebar : Bool
  show_stats_panel : Bool
  max_hits_display : Nat
  max_log_lines : Nat
  exclude_paths : List String
  exclude_methods : List String
  strip_prefixes : List String
  endpoint_replacements : List (String × String)
  mask_headers : List String
  mask_body_fields : List String
  db_path : String
deriving DecidableEq

/-- `TUIConfig.to_json_payload`: `asdict`, then the four set-typed fields
replaced by `list(...)` (`list` of a dict yields its keys) and the enum by
its `.value`. -/
def to_json_payload (c : TUIConfig) : ConfigPayload :=
  { host := c.host, port := c.port, reload := c.reload,
    reload_dirs := c.reload_dirs,
    enable_exceptions := c.enable_exceptions,
    enable_request_logging := c.enable_request_logging,
    enable_response_body := c.enable_response_body,
    enable_runtime_logs := c.enable_runtime_logs,
    enable_stats := c.enable_stats,
    enable_persistence := c.enable_persistence,
    log_level := c.log_level.value, log_to_file := c.log_to_file,
    log_file_path := c.log_file_path, show_sidebar := c.show_sidebar,
    show_stats_panel := c.show_stats_panel,
    max_hits_display := c.max_hits_display,
    max_log_lines := c.max_log_lines,
    exclude_paths := c.exclude_paths.elems,
    exclude_methods := c.exclude_methods,
    strip_prefixes := c.strip_prefixes,
    endpoint_replacements := c.endpoint_replacements,
    mask_headers := c.mask_headers,
    mask_body_fields := c.mask_body_fields, db_path := c.db_path }

/-- `TUIConfig.from_json_payload`: lists turned back into sets (so
`exclude_paths` always becomes a SET), `LogLevel(value)` (which raises on an
unknown value — `none`). -/
def from_json_payload (p : ConfigPayload) : Option TUIConfig :=
  (logLevelOfString p.log_level).map (fun lvl =>
    { host := p.host, port := p.port, reload := p.reload,
      reload_dirs := p.reload_dirs,
      enable_exceptions := p.enable_exceptions,
      enable_request_logging := p.enable_request_logging,
      enable_response_body := p.enable_response_body,
      enable_runtime_logs := p.enable_runtime_logs,
      enable_stats := p.enable_stats,
      enable_persistence := p.enable_persistence,
      log_level := lvl, log_to_file := p.log_to_file,
      log_file_path := p.log_file_path, show_sidebar := p.show_sidebar,
      show_stats_panel := p.show_stats_panel,
      max_hits_display := p.max_hits_display,
      max_log_lines := p.max_log_lines,
      exclude_paths := .pyset p.exclude_paths,
      exclude_methods := p.exclude_methods,
      strip_prefixes := p.strip_prefixes,
      endpoint_replacements := p.endpoint_replacements,
      mask_headers := p.mask_headers,
      mask_body_fields := p.mask_body_fields, db_path := p.db_path })

/-- Python set equality: same elements, order-free. -/
def pySetBeq (a b : List String) : Bool :=
  a.all (fun x => b.contains x) && b.all (fun x => a.contains x)

/-- Python `==` on the `exclude_paths` field: sets compare extensionally
with sets, dicts with dicts, and a set NEVER equals a dict (even both
empty). -/
def strCollBeq : StrColl → StrColl → Bool
  | .pyset a, .pyset b => pySetBeq a b
  | .pydict a, .pydict b => pySetBeq a b
  | _, _ => false

/-- Python dataclass `==` on two configurations: field-for-field, with
set-typed fields compared as sets.  (`endpoint_replacements` dicts are
compared on their in-order representations, which round-tripping
preserves.) -/
def configEqPython (a b : TUIConfig) : Bool :=
  a.host == b.host && a.port == b.port && a.reload == b.reload &&
  a.reload_dirs == b.reload_dirs &&
  a.enable_exceptions == b.enable_exceptions &&
  a.enable_request_logging == b.enable_request_logging &&
  a.enable_response_body == b.enable_response_body &&
  a.enable_runtime_logs == b.enable_runtime_logs &&
  a.enable_stats == b.enable_stats &&
  a.enable_persistence == b.enable_persistence &&
  decide (a.log_level = b.log_level) && a.log_to_file == b.log_to_file &&
  a.log_file_path == b.log_file_path && a.show_sidebar == b.show_sidebar &&
  a.show_stats_panel == b.show_stats_panel &&
  a.max_hits_display == b.max_hits_display &&
  a.max_log_lines == b.max_log_lines &&
  strCollBeq a.exclude_paths b.exclude_paths &&
  pySetBeq a.exclude_methods b.exclude_methods &&
  a.strip_prefixes == b.strip_prefixes &&
  a.endpoint_replacements == b.endpoint_replacements &&
  pySetBeq a.mask_headers b.mask_headers &&
  pySetBeq a.mask_body_fields b.mask_body_fields &&
  a.db_path == b.db_path

theorem logLevelOfString_value (l : LogLevel) :
    logLevelOfString l.value = some l := by
  cases l <;> rfl

/-- C8 (amended): for every configuration whose `exclude_paths` holds an
actual set (as the dataclass annotates), serialising to the JSON payload and
deserialising yields the configuration back exactly — field for field,
including the set-typed fields and the enum-typed `log_level`.  The
restriction is necessary: the DEFAULT `exclude_paths` is the empty dict
(`default_factory=lambda: {}`), which deserialisation turns into the empty
set, and Python equality distinguishes the two (see the counterexample). -/
theorem C8_payload_roundtrip (c : TUIConfig) (s : List String)
    (h : c.exclude_paths = StrColl.pyset s) :
    from_json_payload (to_json_payload c) = some c := by
  simp only [from_json_payload, to_json_payload, logLevelOfString_value,
    Option.map_some, h, StrColl.elems]
  rw [← h]
  rfl

/-- Witness for C8 (amended) at the default configuration with
`exclude_paths` replaced by the set `{"/health"}`. -/
theorem C8_payload_roundtrip_witness :
    from_json_payload (to_json_payload { defaultConfig with
      exclude_paths := StrColl.pyset ["/health"] }) =
      some { defaultConfig with
        exclude_paths := StrColl.pyset ["/health"] } :=
  C8_payload_roundtrip _ ["/health"] rfl

/-- C8 counterexample: the default-constructed configuration (whose
`exclude_paths` is the empty dict `{}`) round-trips to a configuration whose
`exclude_paths` is the empty SET; the result is not the original
configuration, and Python field-for-field equality (`configEqPython`)
rejects the pair because `{} == set()` is `False` in Python. -/
theorem C8_counterexample :
    from_json_payload (to_json_payload defaultConfig) =
      some { defaultConfig with exclude_paths := StrColl.pyset [] } ∧
    ({ defaultConfig with exclude_paths := StrColl.pyset [] } : TUIConfig)
      ≠ defaultConfig ∧
    configEqPython { defaultConfig with exclude_paths := StrColl.pyset [] }
      defaultConfig = false := by
  refine ⟨rfl, by decide, by decide⟩

/-- The hit dict handed to `TUIPersistence.save_hit`: the `id` key (absent =
`none`), the projected columns, and the full payload (stored as
`json.dumps(hit_data)`; the dump is modelled by the payload itself). -/
structure HitPayload where
  id : Option String
  endpoint : Option String
  method : Option String
  status_code : Option Int
  duration_ms : Option ℚ
  timestamp : Option Nat

/-- One row of the `endpoint_hits` table. -/
structure HitRow where
  id : String
  session_id : String
  endpoint : Option String
  method : Option String
  status_code : Option Int
  duration_ms : Option ℚ
  timestamp : Option Nat
  data : HitPayload

/-- One row of the `server_logs` table. -/
structure LogRow where
  session_id : String
  level : String
  message : String
  timestamp : Nat

/-- The SQLite database contents: `sessions(id, start_time, name)`,
`endpoint_hits`, `server_logs`. -/
structure TUIDb where
  sessions : List (String × Nat × String)
  endpoint_hits : List HitRow
  server_logs : List LogRow

/-- `TUIPersistence` state: the `enabled` flag, the live session id, and the
database.  Each operation takes an `ok : Bool` standing for whether the
SQLite calls inside its `try` block succeed; on `ok = false` the exception
is caught (`except ... pass` / `return []`), nothing is committed, and the
database is unchanged — the operations are total functions, never raising,
mirroring that every Python method swallows its errors. -/
structure TUIPersistence where
  enabled : Bool
  current_session_id : String
  db : TUIDb

/-- `INSERT OR REPLACE` keyed by the `id` primary key: an existing row is
replaced in place, a new id is appended. -/
def upsertHitRow (rows : List HitRow) (r : HitRow) : List HitRow :=
  if rows.any (fun x => x.id = r.id) then
    rows.map (fun x => if x.id = r.id then r else x)
  else rows ++ [r]

/-- `TUIPersistence.save_hit`: no-op when disabled; otherwise ensure the
dict has an id (`freshId` is the uuid the source would draw) and upsert the
row against the live session. -/
def save_hit (p : TUIPersistence) (ok : Bool) (hd : HitPayload)
    (freshId : String) : TUIPersistence :=
  if !p.enabled then p
  else if !ok then p
  else
    let hid := hd.id.getD freshId
    let hd2 := { hd with id := some hid }
    let row : HitRow :=
      { id := hid, session_id := p.current_session_id,
        endpoint := hd2.endpoint, method := hd2.method,
        status_code := hd2.status_code, duration_ms := hd2.duration_ms,
        timestamp := hd2.timestamp, data := hd2 }
    { p with db := { p.db with
        endpoint_hits := upsertHitRow p.db.endpoint_hits row } }

/-- `TUIPersistence.save_log`: append-only against the live session. -/
def save_log (p : TUIPersistence) (ok : Bool) (level message : String)
    (ts : Nat) : TUIPersistence :=
  if !p.enabled then p
  else if !ok then p
  else { p with db := { p.db with
      server_logs := p.db.server_logs ++
        [{ session_id := p.current_session_id, level := level,
           message := message, timestamp := ts }] } }

/-- `TUIPersistence.start_new_session`: returns `"disabled"` untouched when
disabled; otherwise the live session id is set to the fresh uuid BEFORE the
`try` block, so it changes even when the insert fails. -/
def start_new_session (p : TUIPersistence) (ok : Bool) (newId : String)
    (ts : Nat) : TUIPersistence × String :=
  if !p.enabled then (p, "disabled")
  else
    let p2 := { p with current_session_id := newId }
    if !ok then (p2, newId)
    else ({ p2 with db := { p2.db with
        sessions := p2.db.sessions ++
          [(newId, ts, "Session " ++ toString ts)] } }, newId)

/-- `TUIPersistence.delete_session`: cascades to the session's hits and
logs. -/
def delete_session (p : TUIPersistence) (ok : Bool) (sid : String) :
    TUIPersistence :=
  if !p.enabled then p
  else if !ok then p
  else { p with db :=
    { sessions := p.db.sessions.filter (fun s => s.1 != sid),
      endpoint_hits := p.db.endpoint_hits.filter
        (fun h => h.session_id != sid),
      server_logs := p.db.server_logs.filter
        (fun l => l.session_id != sid) } }

/-- `TUIPersistence.get_sessions`: all sessions, newest first (ordered by
`start_time DESC`). -/
def get_sessions (p : TUIPersistence) (ok : Bool) :
    List (String × Nat × String) :=
  if !p.enabled then []
  else if !ok then []
  else List.insertionSort (fun a b => b.2.1 ≤ a.2.1) p.db.sessions

/-- `TUIPersistence.get_recent_hits`: session-scoped (explicit session id or
the live one — Python `session_id or self.current_session_id`), newest
first, limited; returns the stored payloads. -/
def get_recent_hits (p : TUIPersistence) (ok : Bool) (limit : Nat)
    (session_id : Option String) : List HitPayload :=
  if !p.enabled then []
  else if !ok then []
  else
    let target := session_id.getD p.current_session_id
    ((List.insertionSort (fun a b => b.timestamp.getD 0 ≤ a.timestamp.getD 0)
        (p.db.endpoint_hits.filter (fun h => h.session_id == target))).take
      limit).map (fun h => h.data)

/-- `TUIPersistence.get_recent_logs`: session-scoped, oldest first,
limited. -/
def get_recent_logs (p : TUIPersistence) (ok : Bool) (limit : Nat)
    (session_id : Option String) : List (String × String × Nat) :=
  if !p.enabled then []
  else if !ok then []
  else
    let target := session_id.getD p.current_session_id
    ((List.insertionSort (fun a b => a.timestamp ≤ b.timestamp)
        (p.db.server_logs.filter (fun l => l.session_id == target))).take
      limit).map (fun l => (l.level, l.message, l.timestamp))

/-- C9: when persistence is disabled every operation is a safe no-op —
writes (`save_hit`, `save_log`, `delete_session`) return the state
unchanged, `start_new_session` returns `"disabled"` with the state
unchanged, and the reads return empty lists; and for every operation whose
SQLite calls fail (`ok = false`), the error is swallowed (the operations
are total and never raise by construction), the database is left unchanged
and the reads return empty lists — only `start_new_session` still switches
the live session id, which the source sets before its `try` block. -/
theorem C9_disabled_noop_and_failure_swallowed (p : TUIPersistence)
    (ok : Bool) (hd : HitPayload) (fid lvl msg nid sid : String)
    (ts : Nat) (lim : Nat) (osid : Option String) :
    (p.enabled = false →
      save_hit p ok hd fid = p ∧
      save_log p ok lvl msg ts = p ∧
      start_new_session p ok nid ts = (p, "disabled") ∧
      delete_session p ok sid = p ∧
      get_sessions p ok = [] ∧
      get_recent_hits p ok lim osid = [] ∧
      get_recent_logs p ok lim osid = []) ∧
    ((save_hit p false hd fid).db = p.db ∧
      (save_log p false lvl msg ts).db = p.db ∧
      (start_new_session p false nid ts).1.db = p.db ∧
      (delete_session p false sid).db = p.db ∧
      get_sessions p false = [] ∧
      get_recent_hits p false lim osid = [] ∧
      get_recent_logs p false lim osid = []) := by
  constructor
  · intro hdis
    simp [save_hit, save_log, start_new_session, delete_session,
      get_sessions, get_recent_hits, get_recent_logs, hdis]
  · cases hen : p.enabled <;>
      simp [save_hit, save_log, start_new_session, delete_session,
        get_sessions, get_recent_hits, get_recent_logs, hen]

/-- A disabled persistence instance over an empty database. -/
def disabledPersistence : TUIPersistence :=
  { enabled := false, current_session_id := "disabled",
    db := { sessions := [], endpoint_hits := [], server_logs := [] } }

/-- An empty hit dict. -/
def emptyHitPayload : HitPayload :=
  { id := none, endpoint := none, method := none, status_code := none,
    duration_ms := none, timestamp := none }

/-- Witness for C9 at a concrete disabled persistence state, with the
disabled hypothesis discharged. -/
theorem C9_disabled_noop_witness :
    (save_hit disabledPersistence true emptyHitPayload "u" =
        disabledPersistence ∧
      save_log disabledPersistence true "INFO" "m" 0 =
        disabledPersistence ∧
      start_new_session disabledPersistence true "s1" 0 =
        (disabledPersistence, "disabled") ∧
      delete_session disabledPersistence true "s1" = disabledPersistence ∧
      get_sessions disabledPersistence true = [] ∧
      get_recent_hits disabledPersistence true 100 none = [] ∧
      get_recent_logs disabledPersistence true 1000 none = []) ∧
    ((save_hit disabledPersistence false emptyHitPayload "u").db =
        disabledPersistence.db ∧
      (save_log disabledPersistence false "INFO" "m" 0).db =
        disabledPersistence.db ∧
      (start_new_session disabledPersistence false "s1" 0).1.db =
        disabledPersistence.db ∧
      (delete_session disabledPersistence false "s1").db =
        disabledPersistence.db ∧
      get_sessions disabledPersistence false = [] ∧
      get_recent_hits disabledPersistence false 100 none = [] ∧
      get_recent_logs disabledPersistence false 1000 none = []) :=
  ⟨(C9_disabled_noop_and_failure_swallowed disabledPersistence true
      emptyHitPayload "u" "INFO" "m" "s1" "s1" 0 100 none).1 rfl,
    (C9_disabled_noop_and_failure_swallowed disabledPersistence true
      emptyHitPayload "u" "INFO" "m" "s1" "s1" 0 100 none).2⟩
